import Mathlib

/-!
Shallow embedding of `timberpy/timber/cython/taper_equations_cy.pyx`.

The four taper-equation evaluators are pure functions from a tree's
measurements (`dbh`, `total_height`) and a model coefficient tuple to a
height-keyed diameter profile.  The Cython `dict` built by the loop
`for stem_height in range(1, int(total_height) + 1)` is modelled as an
association list over the same key sequence, `List.range' 1 top_height`
with `top_height = int(total_height)`; C floats are modelled as real
numbers, `sqrt`/`log`/`exp` as `Real.sqrt`/`Real.log`/`Real.exp`, and the
float `**` operator as `Real.rpow` (integer exponents as monoid powers).
The C cast `int(x)` truncates toward zero, modelled by `intTrunc`.
-/

/-- The C float-to-int cast `int(x)`: truncation toward zero. -/
noncomputable def intTrunc (x : ℝ) : ℤ :=
  if 0 ≤ x then ⌊x⌋ else ⌈x⌉

/-- The list `dibs = [dib_int, dib, dib / 12.0]` emitted at each height,
as the typed triple `(int(dib), dib, dib / 12.0)`. -/
noncomputable def mkDibs (dib : ℝ) : ℤ × ℝ × ℝ :=
  (intTrunc dib, dib, dib / 12.0)

/-- Body of the loop of `czaplewski_heights`:
`Z = stem_height / total_height`, `Z2 = stem_height**2 / total_height**2`,
`I1 = int(Z < a)`, `I2 = int(Z < b)`,
`dib = dbh * sqrt(c*(Z-1) + d*(Z2-1) + e*(a-Z)**2*I1 + f*(b-Z)**2*I2)`. -/
noncomputable def czaplewski_dib (dbh total_height a b c d e f : ℝ)
    (stem_height : ℕ) : ℝ :=
  let Z : ℝ := (stem_height : ℝ) / total_height
  let Z2 : ℝ := (stem_height : ℝ) ^ 2 / total_height ^ 2
  let I1 : ℝ := if Z < a then 1 else 0
  let I2 : ℝ := if Z < b then 1 else 0
  dbh * Real.sqrt ((c * (Z - 1)) + (d * (Z2 - 1)) +
    (e * ((a - Z) ^ 2) * I1) + (f * ((b - Z) ^ 2) * I2))

/-- `czaplewski_heights(dbh, total_height, a, b, c, d, e, f)`. -/
noncomputable def czaplewski_heights (dbh total_height a b c d e f : ℝ) :
    List (ℕ × (ℤ × ℝ × ℝ)) :=
  (List.range' 1 (intTrunc total_height).toNat).map
    (fun stem_height =>
      (stem_height, mkDibs (czaplewski_dib dbh total_height a b c d e f stem_height)))

/-- Body of the loop of `kozak1969_heights`:
`Z = stem_height / total_height`, `Z2 = stem_height**2 / total_height**2`,
`dib = dbh * sqrt(a + b*Z + c*Z2)`. -/
noncomputable def kozak1969_dib (dbh total_height a b c : ℝ)
    (stem_height : ℕ) : ℝ :=
  let Z : ℝ := (stem_height : ℝ) / total_height
  let Z2 : ℝ := (stem_height : ℝ) ^ 2 / total_height ^ 2
  dbh * Real.sqrt (a + (b * Z) + (c * Z2))

/-- `kozak1969_heights(dbh, total_height, a, b, c)`. -/
noncomputable def kozak1969_heights (dbh total_height a b c : ℝ) :
    List (ℕ × (ℤ × ℝ × ℝ)) :=
  (List.range' 1 (intTrunc total_height).toNat).map
    (fun stem_height =>
      (stem_height, mkDibs (kozak1969_dib dbh total_height a b c stem_height)))

/-- Body of the loop of `kozak1988_heights`:
`Z = stem_height / total_height`,
`dib = (a * dbh**b * c**dbh) * ((1 - Z**0.5) / (1 - d**0.5))
         ** (e*Z**2 + f*log(Z + 0.001) + g*Z**0.5 + h*exp(Z) + i*(dbh/total_height))`. -/
noncomputable def kozak1988_dib (dbh total_height a b c d e f g h i : ℝ)
    (stem_height : ℕ) : ℝ :=
  let Z : ℝ := (stem_height : ℝ) / total_height
  (a * (dbh ^ b) * (c ^ dbh)) *
    ((1 - (Z ^ (0.5 : ℝ))) / (1 - (d ^ (0.5 : ℝ)))) ^
      ((e * (Z ^ 2)) + (f * Real.log (Z + 0.001)) + (g * (Z ^ (0.5 : ℝ))) +
        (h * Real.exp Z) + (i * (dbh / total_height)))

/-- `kozak1988_heights(dbh, total_height, a, b, c, d, e, f, g, h, i)`. -/
noncomputable def kozak1988_heights (dbh total_height a b c d e f g h i : ℝ) :
    List (ℕ × (ℤ × ℝ × ℝ)) :=
  (List.range' 1 (intTrunc total_height).toNat).map
    (fun stem_height =>
      (stem_height, mkDibs (kozak1988_dib dbh total_height a b c d e f g h i stem_height)))

/-- Body of the loop of `wensel_heights`:
`Z = (stem_height - 1) / (total_height - 1)`,
`X = c + d*dbh + e*total_height`,
`dib = dbh * (a - X * log(1 - Z**b * (1 - exp(a / X))))`. -/
noncomputable def wensel_dib (dbh total_height a b c d e : ℝ)
    (stem_height : ℕ) : ℝ :=
  let Z : ℝ := ((stem_height : ℝ) - 1) / (total_height - 1)
  let X : ℝ := c + (d * dbh) + (e * total_height)
  dbh * (a - (X * (Real.log (1 - (Z ^ b) * (1 - Real.exp (a / X))))))

/-- `wensel_heights(dbh, total_height, a, b, c, d, e)`. -/
noncomputable def wensel_heights (dbh total_height a b c d e : ℝ) :
    List (ℕ × (ℤ × ℝ × ℝ)) :=
  (List.range' 1 (intTrunc total_height).toNat).map
    (fun stem_height =>
      (stem_height, mkDibs (wensel_dib dbh total_height a b c d e stem_height)))

/-! ### Helper lemmas on the shared profile shape -/

/-- Looking up a key inside the mapped key range returns the mapped value. -/
theorem lookup_map_range' {α : Type} (f : ℕ → α) (s n k : ℕ)
    (h1 : s ≤ k) (h2 : k < s + n) :
    ((List.range' s n).map (fun j => (j, f j))).lookup k = some (f k) := by
  induction n generalizing s with
  | zero => omega
  | succ n ih =>
    rw [List.range'_succ, List.map_cons, List.lookup_cons]
    by_cases hk : k = s
    · subst hk; simp
    · have : (k == s) = false := by simpa using hk
      rw [this]
      exact ih (s + 1) (by omega) (by omega)

/-- The key list of a mapped key range is the key range itself. -/
theorem keys_map_range' {α : Type} (f : ℕ → α) (s n : ℕ) :
    (((List.range' s n).map (fun j => (j, f j))).map Prod.fst) = List.range' s n := by
  simp [Function.comp_def]

/-- For positive `x`, the truncating cast agrees with the floor. -/
theorem intTrunc_of_pos {x : ℝ} (hx : 0 < x) : intTrunc x = ⌊x⌋ := by
  simp [intTrunc, hx.le]

/-- For `x < 1` the truncating cast is at most zero, so its `toNat` is zero:
the loop `range(1, int(total_height) + 1)` is empty. -/
theorem intTrunc_toNat_of_lt_one {x : ℝ} (hx : x < 1) :
    (intTrunc x).toNat = 0 := by
  rcases le_or_lt 0 x with h0 | h0
  · have : ⌊x⌋ = 0 := by
      rw [Int.floor_eq_zero_iff]
      exact ⟨h0, hx⟩
    simp [intTrunc, h0, this]
  · have hle : ⌈x⌉ ≤ 0 := Int.ceil_le.mpr (by exact_mod_cast h0.le)
    have : intTrunc x = ⌈x⌉ := by simp [intTrunc, not_le.mpr h0]
    rw [this]
    omega

/-- Arithmetic bridge from an integer bound to the `range'` length bound. -/
theorem lt_one_add_toNat {k : ℕ} {m : ℤ} (h : (k : ℤ) ≤ m) : k < 1 + m.toNat := by
  omega

/-- Looking up an in-range key in the Czaplewski profile. -/
theorem czaplewski_lookup (dbh th a b c d e f : ℝ) (k : ℕ)
    (h1 : 1 ≤ k) (h2 : (k : ℤ) ≤ ⌊th⌋) (hth : 0 < th) :
    (czaplewski_heights dbh th a b c d e f).lookup k
      = some (mkDibs (czaplewski_dib dbh th a b c d e f k)) := by
  rw [czaplewski_heights, intTrunc_of_pos hth]
  exact lookup_map_range' _ 1 _ k h1 (lt_one_add_toNat h2)

/-- Looking up an in-range key in the Kozak-1969 profile. -/
theorem kozak1969_lookup (dbh th a b c : ℝ) (k : ℕ)
    (h1 : 1 ≤ k) (h2 : (k : ℤ) ≤ ⌊th⌋) (hth : 0 < th) :
    (kozak1969_heights dbh th a b c).lookup k
      = some (mkDibs (kozak1969_dib dbh th a b c k)) := by
  rw [kozak1969_heights, intTrunc_of_pos hth]
  exact lookup_map_range' _ 1 _ k h1 (lt_one_add_toNat h2)

/-- Looking up an in-range key in the Kozak-1988 profile. -/
theorem kozak1988_lookup (dbh th a b c d e f g h i : ℝ) (k : ℕ)
    (h1 : 1 ≤ k) (h2 : (k : ℤ) ≤ ⌊th⌋) (hth : 0 < th) :
    (kozak1988_heights dbh th a b c d e f g h i).lookup k
      = some (mkDibs (kozak1988_dib dbh th a b c d e f g h i k)) := by
  rw [kozak1988_heights, intTrunc_of_pos hth]
  exact lookup_map_range' _ 1 _ k h1 (lt_one_add_toNat h2)

/-- Looking up an in-range key in the Wensel profile. -/
theorem wensel_lookup (dbh th a b c d e : ℝ) (k : ℕ)
    (h1 : 1 ≤ k) (h2 : (k : ℤ) ≤ ⌊th⌋) (hth : 0 < th) :
    (wensel_heights dbh th a b c d e).lookup k
      = some (mkDibs (wensel_dib dbh th a b c d e k)) := by
  rw [wensel_heights, intTrunc_of_pos hth]
  exact lookup_map_range' _ 1 _ k h1 (lt_one_add_toNat h2)

/-- Claim C1: for each of the four evaluators and every input with `dbh > 0` and
`total_height > 0`, the key list of the returned profile is exactly
`List.range' 1 ⌊total_height⌋.toNat = [1, 2, ..., ⌊total_height⌋]`; in
particular a fractional `total_height` such as `37.6` yields exactly the keys
`1..37` and no key `0` or key above `total_height`. -/
theorem claim_C1_key_range (dbh th a b c d e f g h i : ℝ)
    (hdbh : 0 < dbh) (hth : 0 < th) :
    (czaplewski_heights dbh th a b c d e f).map Prod.fst = List.range' 1 ⌊th⌋.toNat ∧
    (kozak1969_heights dbh th a b c).map Prod.fst = List.range' 1 ⌊th⌋.toNat ∧
    (kozak1988_heights dbh th a b c d e f g h i).map Prod.fst = List.range' 1 ⌊th⌋.toNat ∧
    (wensel_heights dbh th a b c d e).map Prod.fst = List.range' 1 ⌊th⌋.toNat := by
  rw [czaplewski_heights, kozak1969_heights, kozak1988_heights, wensel_heights,
    intTrunc_of_pos hth]
  exact ⟨keys_map_range' _ 1 _, keys_map_range' _ 1 _,
    keys_map_range' _ 1 _, keys_map_range' _ 1 _⟩

/-- Witness for claim C1 at `dbh = 10`, `total_height = 37.6`: all four
profiles carry exactly the keys `1..37`. -/
theorem claim_C1_key_range_witness :
    (czaplewski_heights 10 37.6 0 0 0 0 0 0).map Prod.fst = List.range' 1 37 ∧
    (kozak1969_heights 10 37.6 0 0 0).map Prod.fst = List.range' 1 37 ∧
    (kozak1988_heights 10 37.6 0 0 0 0 0 0 0 0 0).map Prod.fst = List.range' 1 37 ∧
    (wensel_heights 10 37.6 0 0 0 0 0).map Prod.fst = List.range' 1 37 := by
  have hk := claim_C1_key_range 10 37.6 0 0 0 0 0 0 0 0 0
    (by norm_num) (by norm_num)
  have hfloor : (⌊(37.6 : ℝ)⌋).toNat = 37 := by
    have h37 : ⌊(37.6 : ℝ)⌋ = 37 := by norm_num
    rw [h37]
    rfl
  rw [hfloor] at hk
  exact hk

/-- Claim C2: for every input with `total_height ≥ 1` and every integer height
`sh` in `1..⌊total_height⌋`, `czaplewski_heights` stores at key `sh` a dib
equal to `dbh * sqrt(c*(Z-1) + d*(Z2-1) + e*(a-Z)^2*I1 + f*(b-Z)^2*I2)` with
`Z = sh/total_height`, `Z2 = sh^2/total_height^2`, `I1 = 1 if Z < a else 0`
and `I2 = 1 if Z < b else 0` (the piecewise indicators kept exactly). -/
theorem claim_C2_czaplewski_formula (dbh th a b c d e f : ℝ) (sh : ℕ)
    (hth : 1 ≤ th) (h1 : 1 ≤ sh) (h2 : (sh : ℤ) ≤ ⌊th⌋) :
    ((czaplewski_heights dbh th a b c d e f).lookup sh).map (fun t => t.2.1)
      = some (dbh * Real.sqrt
          ((c * ((sh : ℝ) / th - 1)) + (d * ((sh : ℝ) ^ 2 / th ^ 2 - 1)) +
           (e * ((a - (sh : ℝ) / th) ^ 2) * (if (sh : ℝ) / th < a then 1 else 0)) +
           (f * ((b - (sh : ℝ) / th) ^ 2) * (if (sh : ℝ) / th < b then 1 else 0)))) := by
  rw [czaplewski_lookup dbh th a b c d e f sh h1 h2 (lt_of_lt_of_le one_pos hth)]
  rfl

/-- Witness for claim C2 at `dbh = 2`, `total_height = 2`, all coefficients
zero, height 1: the stored dib is `2 * sqrt 0 = 0`. -/
theorem claim_C2_czaplewski_formula_witness :
    ((czaplewski_heights 2 2 0 0 0 0 0 0).lookup 1).map (fun t => t.2.1) = some 0 := by
  have hk := claim_C2_czaplewski_formula 2 2 0 0 0 0 0 0 1
    (by norm_num) (by norm_num) (by norm_num)
  rw [hk]
  norm_num

/-- Claim C3: for every input with `total_height ≥ 1` and every integer height
`sh` in `1..⌊total_height⌋`, `kozak1969_heights` stores at key `sh` a dib
equal to `dbh * sqrt(a + b*Z + c*Z^2)` with `Z = sh/total_height` (the code's
`Z2 = sh^2/total_height^2` equals `Z^2`). -/
theorem claim_C3_kozak1969_formula (dbh th a b c : ℝ) (sh : ℕ)
    (hth : 1 ≤ th) (h1 : 1 ≤ sh) (h2 : (sh : ℤ) ≤ ⌊th⌋) :
    ((kozak1969_heights dbh th a b c).lookup sh).map (fun t => t.2.1)
      = some (dbh * Real.sqrt (a + (b * ((sh : ℝ) / th)) + (c * ((sh : ℝ) / th) ^ 2))) := by
  rw [kozak1969_lookup dbh th a b c sh h1 h2 (lt_of_lt_of_le one_pos hth)]
  simp [mkDibs, kozak1969_dib, div_pow]

/-- Witness for claim C3 at `dbh = 3`, `total_height = 2`, coefficients
`a = 1, b = 0, c = 0`, height 1: the stored dib is `3 * sqrt 1 = 3`. -/
theorem claim_C3_kozak1969_formula_witness :
    ((kozak1969_heights 3 2 1 0 0).lookup 1).map (fun t => t.2.1) = some 3 := by
  have hk := claim_C3_kozak1969_formula 3 2 1 0 0 1
    (by norm_num) (by norm_num) (by norm_num)
  rw [hk]
  norm_num

/-- Claim C4: for every input with `total_height ≥ 1` and every integer height
`sh` in `1..⌊total_height⌋`, `kozak1988_heights` stores at key `sh` a dib
equal to `(a * dbh^b * c^dbh) * ((1 - Z^0.5) / (1 - d^0.5)) ^ (e*Z^2 +
f*ln(Z + 0.001) + g*Z^0.5 + h*exp(Z) + i*(dbh/total_height))` with
`Z = sh/total_height` and the `+0.001` offset inside the logarithm verbatim. -/
theorem claim_C4_kozak1988_formula (dbh th a b c d e f g h i : ℝ) (sh : ℕ)
    (hth : 1 ≤ th) (h1 : 1 ≤ sh) (h2 : (sh : ℤ) ≤ ⌊th⌋) :
    ((kozak1988_heights dbh th a b c d e f g h i).lookup sh).map (fun t => t.2.1)
      = some ((a * (dbh ^ b) * (c ^ dbh)) *
          ((1 - (((sh : ℝ) / th) ^ (0.5 : ℝ))) / (1 - (d ^ (0.5 : ℝ)))) ^
            ((e * (((sh : ℝ) / th) ^ 2)) + (f * Real.log ((sh : ℝ) / th + 0.001)) +
             (g * (((sh : ℝ) / th) ^ (0.5 : ℝ))) + (h * Real.exp ((sh : ℝ) / th)) +
             (i * (dbh / th)))) := by
  rw [kozak1988_lookup dbh th a b c d e f g h i sh h1 h2 (lt_of_lt_of_le one_pos hth)]
  rfl

/-- Witness for claim C4 at `dbh = 1`, `total_height = 1`, `a = 0` and the
remaining coefficients zero, height 1: the stored dib is `0 * (...) = 0`. -/
theorem claim_C4_kozak1988_formula_witness :
    ((kozak1988_heights 1 1 0 0 0 0 0 0 0 0 0).lookup 1).map (fun t => t.2.1)
      = some 0 := by
  have hk := claim_C4_kozak1988_formula 1 1 0 0 0 0 0 0 0 0 0 1
    (by norm_num) (by norm_num) (by norm_num)
  rw [hk]
  norm_num

/-- Claim C5: for every input with `total_height ≥ 1`, `total_height ≠ 1`, and
every integer height `sh` in `1..⌊total_height⌋`, `wensel_heights` stores at
key `sh` a dib equal to `dbh * (a - X * ln(1 - Z^b * (1 - exp(a/X))))` with
`Z = (sh - 1)/(total_height - 1)` (the offset-by-one normalization, distinct
from the other three models) and `X = c + d*dbh + e*total_height`. -/
theorem claim_C5_wensel_formula (dbh th a b c d e : ℝ) (sh : ℕ)
    (hth : 1 ≤ th) (hne : th ≠ 1) (h1 : 1 ≤ sh) (h2 : (sh : ℤ) ≤ ⌊th⌋) :
    ((wensel_heights dbh th a b c d e).lookup sh).map (fun t => t.2.1)
      = some (dbh * (a - ((c + (d * dbh) + (e * th)) *
          (Real.log (1 - ((((sh : ℝ) - 1) / (th - 1)) ^ b) *
            (1 - Real.exp (a / (c + (d * dbh) + (e * th))))))))) := by
  rw [wensel_lookup dbh th a b c d e sh h1 h2 (lt_of_lt_of_le one_pos hth)]
  rfl

/-- Witness for claim C5 at `dbh = 1`, `total_height = 2`, `a = 0`, `b = 1`,
`c = 1`, `d = e = 0`, height 1: `Z = 0`, `X = 1`, the stored dib is `0`. -/
theorem claim_C5_wensel_formula_witness :
    ((wensel_heights 1 2 0 1 1 0 0).lookup 1).map (fun t => t.2.1) = some 0 := by
  have hk := claim_C5_wensel_formula 1 2 0 1 1 0 0 1
    (by norm_num) (by norm_num) (by norm_num) (by norm_num)
  rw [hk]
  norm_num

/-- Each emitted triple has first component `intTrunc` of the second
and third component the second divided by `12.0`. -/
theorem mkDibs_shape (D : ℝ) :
    (mkDibs D).1 = intTrunc (mkDibs D).2.1 ∧ (mkDibs D).2.2 = (mkDibs D).2.1 / 12.0 :=
  ⟨rfl, rfl⟩

/-- Claim C6: every profile entry produced by any of the four evaluators is
the 3-tuple `(int(dib), dib, dib/12.0)`: the first component is the dib
truncated toward zero (`intTrunc`, not rounding) and the third is the second
divided by `12.0` with real division. -/
theorem claim_C6_tuple_shape (dbh th a b c d e f g h i : ℝ) :
    (∀ p ∈ czaplewski_heights dbh th a b c d e f,
      p.2.1 = intTrunc p.2.2.1 ∧ p.2.2.2 = p.2.2.1 / 12.0) ∧
    (∀ p ∈ kozak1969_heights dbh th a b c,
      p.2.1 = intTrunc p.2.2.1 ∧ p.2.2.2 = p.2.2.1 / 12.0) ∧
    (∀ p ∈ kozak1988_heights dbh th a b c d e f g h i,
      p.2.1 = intTrunc p.2.2.1 ∧ p.2.2.2 = p.2.2.1 / 12.0) ∧
    (∀ p ∈ wensel_heights dbh th a b c d e,
      p.2.1 = intTrunc p.2.2.1 ∧ p.2.2.2 = p.2.2.1 / 12.0) := by
  refine ⟨?_, ?_, ?_, ?_⟩ <;> intro p hp
  · rw [czaplewski_heights] at hp
    obtain ⟨j, hj, rfl⟩ := List.mem_map.mp hp
    exact mkDibs_shape _
  · rw [kozak1969_heights] at hp
    obtain ⟨j, hj, rfl⟩ := List.mem_map.mp hp
    exact mkDibs_shape _
  · rw [kozak1988_heights] at hp
    obtain ⟨j, hj, rfl⟩ := List.mem_map.mp hp
    exact mkDibs_shape _
  · rw [wensel_heights] at hp
    obtain ⟨j, hj, rfl⟩ := List.mem_map.mp hp
    exact mkDibs_shape _

/-- Witness for claim C6: the concrete entry `(1, (0, 0, 0))` of the
Czaplewski profile at `dbh = 2`, `total_height = 1`, zero coefficients
satisfies the tuple-shape property. -/
theorem claim_C6_tuple_shape_witness :
    (1, ((0 : ℤ), (0 : ℝ), (0 : ℝ))) ∈ czaplewski_heights 2 1 0 0 0 0 0 0 ∧
    ((0 : ℤ) = intTrunc 0 ∧ (0 : ℝ) = (0 : ℝ) / 12.0) := by
  have hprof : czaplewski_heights 2 1 0 0 0 0 0 0
      = [(1, ((0 : ℤ), (0 : ℝ), (0 : ℝ)))] := by
    rw [czaplewski_heights, intTrunc_of_pos one_pos]
    norm_num [List.range', czaplewski_dib, mkDibs, intTrunc]
  have hmem : (1, ((0 : ℤ), (0 : ℝ), (0 : ℝ))) ∈ czaplewski_heights 2 1 0 0 0 0 0 0 := by
    rw [hprof]
    exact List.mem_singleton_self _
  exact ⟨hmem, (claim_C6_tuple_shape 2 1 0 0 0 0 0 0 0 0 0).1 _ hmem⟩

/-- Claim C9: for every input with `dbh > 0` and `total_height ≥ 1`,
`kozak1969_heights` with coefficients `a = 1`, `b = 0`, `c = 0` stores
`dib = dbh` at every height key of the profile, since `sqrt 1 = 1`. -/
theorem claim_C9_kozak1969_identity (dbh th : ℝ) (hdbh : 0 < dbh) (hth : 1 ≤ th)
    (p : ℕ × ℤ × ℝ × ℝ) (hp : p ∈ kozak1969_heights dbh th 1 0 0) :
    p.2.2.1 = dbh := by
  rw [kozak1969_heights] at hp
  obtain ⟨j, hj, rfl⟩ := List.mem_map.mp hp
  simp [mkDibs, kozak1969_dib]

/-- Witness for claim C9 at `dbh = 5.5`, `total_height = 1`: the single
profile entry `(1, (5, 5.5, 5.5/12))` carries `dib = 5.5 = dbh`. -/
theorem claim_C9_kozak1969_identity_witness :
    (1, ((5 : ℤ), (5.5 : ℝ), (5.5 : ℝ) / 12)) ∈ kozak1969_heights 5.5 1 1 0 0 ∧
    (((5 : ℤ), (5.5 : ℝ), (5.5 : ℝ) / 12) : ℤ × ℝ × ℝ).2.1 = 5.5 := by
  have hmem : (1, ((5 : ℤ), (5.5 : ℝ), (5.5 : ℝ) / 12)) ∈ kozak1969_heights 5.5 1 1 0 0 := by
    have hprof : kozak1969_heights 5.5 1 1 0 0
        = [(1, ((5 : ℤ), (5.5 : ℝ), (5.5 : ℝ) / 12))] := by
      rw [kozak1969_heights, intTrunc_of_pos one_pos]
      have htr : intTrunc (11 / 2 : ℝ) = 5 := by
        rw [intTrunc_of_pos (by norm_num)]
        norm_num
      norm_num [List.range', kozak1969_dib, mkDibs, htr]
    rw [hprof]
    exact List.mem_singleton_self _
  exact ⟨hmem, claim_C9_kozak1969_identity 5.5 1 (by norm_num) le_rfl _ hmem⟩

/-- Claim C10 (implicit): for every `total_height < 1` (including zero and
negative values) and any `dbh` and coefficients, each of the four evaluators
returns the empty profile: `int(total_height) < 1` makes the loop
`range(1, int(total_height) + 1)` empty, so no per-height arithmetic runs
and no error is raised. -/
theorem claim_C10_empty_below_one (dbh th a b c d e f g h i : ℝ) (hth : th < 1) :
    czaplewski_heights dbh th a b c d e f = [] ∧
    kozak1969_heights dbh th a b c = [] ∧
    kozak1988_heights dbh th a b c d e f g h i = [] ∧
    wensel_heights dbh th a b c d e = [] := by
  have h0 := intTrunc_toNat_of_lt_one hth
  refine ⟨?_, ?_, ?_, ?_⟩ <;>
    simp [czaplewski_heights, kozak1969_heights, kozak1988_heights, wensel_heights, h0]

/-- Witness for claim C10 at `dbh = 10`, `total_height = -3.5`, all
coefficients one: all four evaluators return the empty profile. -/
theorem claim_C10_empty_below_one_witness :
    (-3.5 : ℝ) < 1 ∧
    (czaplewski_heights 10 (-3.5) 1 1 1 1 1 1 = [] ∧
     kozak1969_heights 10 (-3.5) 1 1 1 = [] ∧
     kozak1988_heights 10 (-3.5) 1 1 1 1 1 1 1 1 1 = [] ∧
     wensel_heights 10 (-3.5) 1 1 1 1 1 = []) :=
  ⟨by norm_num, claim_C10_empty_below_one 10 (-3.5) 1 1 1 1 1 1 1 1 1 (by norm_num)⟩

/-- Counterexample to claim C7: with `total_height = 0` (here `dbh = 7` and
all coefficients `2`) every evaluator returns the empty profile, because
`int(0) = 0` makes `range(1, 1)` empty.  The per-height loop body — the only
place the relative-position term `Z = stem_height / total_height` is
computed — never executes, so no division by zero and no failure occurs,
contradicting the claimed unguarded failure inside the loop. -/
theorem claim_C7_counterexample :
    czaplewski_heights 7 0 2 2 2 2 2 2 = [] ∧
    kozak1969_heights 7 0 2 2 2 = [] ∧
    kozak1988_heights 7 0 2 2 2 2 2 2 2 2 2 = [] ∧
    wensel_heights 7 0 2 2 2 2 2 = [] := by
  have h0 := intTrunc_toNat_of_lt_one (show (0 : ℝ) < 1 by norm_num)
  refine ⟨?_, ?_, ?_, ?_⟩ <;>
    simp [czaplewski_heights, kozak1969_heights, kozak1988_heights, wensel_heights, h0]

/-- Claim C7 as amended: for every evaluator, an input with `total_height`
equal to zero yields the empty profile — the loop range
`range(1, int(0) + 1)` is empty, so the per-height arithmetic (and with it
the relative-position division) is never reached and no failure occurs. -/
theorem claim_C7_amended_empty_at_zero (dbh a b c d e f g h i : ℝ) :
    czaplewski_heights dbh 0 a b c d e f = [] ∧
    kozak1969_heights dbh 0 a b c = [] ∧
    kozak1988_heights dbh 0 a b c d e f g h i = [] ∧
    wensel_heights dbh 0 a b c d e = [] := by
  have h0 := intTrunc_toNat_of_lt_one (show (0 : ℝ) < 1 by norm_num)
  refine ⟨?_, ?_, ?_, ?_⟩ <;>
    simp [czaplewski_heights, kozak1969_heights, kozak1988_heights, wensel_heights, h0]

